import Mathlib

/-
Shallow embedding of the data-cleaner backend's core pipeline
(src/services/parser.py, src/services/cleaner.py, src/services/validator.py).

Modelling conventions:
* A pandas cell is a closed tagged value: missing (None/NaN/NaT), bool, int,
  float (exact rational; float64 rounding is immaterial for every property
  below, see the threshold comments), IEEE infinities, or text.
* A column carries its pandas dtype (`object`, `int64`, `float64`, `bool`,
  `datetime64`); a frame is a row count plus an ordered column list.
* Python `float` / pandas parsing, `str(...)`, `str.strip`, `str.lower` and
  the regexes of `is_date_column` are modelled over ASCII character lists
  (the repository's heuristics and every concrete value in the spec are
  ASCII).
* Ratio thresholds (`> 0.7`, `> 0.8`, percentage cutoffs) are written with
  exact rational division, exactly as the source compares Python floats.
  For sample sizes `n ≤ 100` the float64 comparison agrees with the exact
  rational one: the nearest double to `k/n` equals the double literal
  `0.8` (resp. `0.7`) only when `k/n` is exactly `4/5` (resp. `7/10`),
  because any other ratio differs by at least `1/(10n) ≥ 1/1000`, far more
  than one ulp.  Custom `Decidable` instances below evaluate these
  comparisons by integer cross-multiplication so concrete runs reduce in
  the kernel.
-/

namespace DataCleaner

/-- Runtime value of one cell of a frame. -/
inductive Cell where
  | null
  | bool (b : Bool)
  | int (z : Int)
  | float (q : ℚ)
  | infVal (neg : Bool)
  | text (s : String)
deriving DecidableEq

/-- Pandas column dtype, as tested by `pd.api.types.is_numeric_dtype`,
`is_datetime64_any_dtype`, `is_float_dtype` and `select_dtypes(['object'])`. -/
inductive Dtype where
  | object
  | int64
  | float64
  | boolDt
  | datetime64
deriving DecidableEq

/-- One named column: its pandas dtype and its cells, top to bottom. -/
structure Column where
  name : String
  dtype : Dtype
  cells : List Cell
deriving DecidableEq

/-- A DataFrame: a row count and an ordered list of columns (each column is
expected to hold `nrows` cells; the explicit count also represents frames
with rows but no columns). -/
structure Frame where
  nrows : Nat
  cols : List Column
deriving DecidableEq

def Cell.isNull : Cell → Bool
  | .null => true
  | _ => false

def Frame.ncols (f : Frame) : Nat := f.cols.length

/-- A frame is well formed when every column holds exactly `nrows` cells. -/
def Frame.WF (f : Frame) : Prop := ∀ c ∈ f.cols, c.cells.length = f.nrows

/- ### Character-list string utilities (ASCII models of the Python ones) -/

/-- Python `\w` (ASCII fragment): letters, digits, underscore. -/
def isWordChar (c : Char) : Bool := c.isAlphanum || c = '_'

/-- Leading whitespace removed (model of one side of `str.strip`). -/
def dropLeadingWs (l : List Char) : List Char := l.dropWhile (fun c => c.isWhitespace)

/-- Model of Python `str.strip()`: whitespace removed from both ends. -/
def trimChars (l : List Char) : List Char :=
  (dropLeadingWs ((dropLeadingWs l.reverse).reverse))

/-- Model of Python `str.strip()` on `String`. -/
def pyStrip (s : String) : String := String.mk (trimChars s.data)

/-- Model of Python `str.lower()` (ASCII fragment). -/
def pyLower (s : String) : String := String.mk (s.data.map Char.toLower)

def splitOnAux (sep : Char) : List Char → List Char → List (List Char)
  | [], acc => [acc.reverse]
  | c :: rest, acc =>
    if c = sep then acc.reverse :: splitOnAux sep rest []
    else splitOnAux sep rest (c :: acc)

/-- Split a character list on a separator (the separator is dropped; empty
segments are kept, as with Python `str.split(sep)`). -/
def splitOnChar (sep : Char) (l : List Char) : List (List Char) := splitOnAux sep l []

def isDigits (l : List Char) : Bool := l.all Char.isDigit

/-- Numeric value of a digit list (most significant first). -/
def natOfDigits (l : List Char) : Nat :=
  l.foldl (fun acc c => acc * 10 + (c.toNat - '0'.toNat)) 0

/- ### Decidability of the source's float-threshold comparisons -/

/-- Strict rational comparison `a / b > p / q` for natural counts, decided by
cross-multiplication (`a / 0 = 0` in `ℚ`, matching the guarded call sites). -/
theorem natRatioGTIff (a b p q : Nat) (hq : 0 < q) :
    (a : ℚ) / (b : ℚ) > (p : ℚ) / (q : ℚ) ↔ (0 < b ∧ p * b < a * q) ∨ (b = 0 ∧ p < 0) := by
  rcases Nat.eq_zero_or_pos b with hb | hb
  · subst hb
    simp only [Nat.cast_zero, div_zero]
    constructor
    · intro h
      exfalso
      have hp : (0 : ℚ) ≤ (p : ℚ) / (q : ℚ) := by positivity
      exact absurd (lt_of_le_of_lt hp h) (lt_irrefl 0)
    · rintro (⟨h0, _⟩ | ⟨_, hp⟩)
      · exact absurd h0 (lt_irrefl 0)
      · exact absurd hp (Nat.not_lt_zero p)
  · have hbq : (0 : ℚ) < (b : ℚ) := by exact_mod_cast hb
    have hqq : (0 : ℚ) < (q : ℚ) := by exact_mod_cast hq
    rw [gt_iff_lt, div_lt_div_iff₀ hqq hbq]
    constructor
    · intro h
      refine Or.inl ⟨hb, ?_⟩
      exact_mod_cast h
    · rintro (⟨_, h⟩ | ⟨h0, _⟩)
      · exact_mod_cast h
      · omega

theorem ratioGT08Iff (a b : Nat) :
    (a : ℚ) / (b : ℚ) > (0.8 : ℚ) ↔ (0 < b ∧ 4 * b < a * 5) := by
  have h08 : (0.8 : ℚ) = (4 : Nat) / (5 : Nat) := by norm_num
  rw [h08, natRatioGTIff a b 4 5 (by norm_num)]
  constructor
  · rintro (h | ⟨_, h⟩)
    · exact h
    · exact absurd h (Nat.not_lt_zero 4)
  · exact fun h => Or.inl h

instance (priority := 10000) decRatioGT08 (a b : Nat) :
    Decidable ((a : ℚ) / (b : ℚ) > (0.8 : ℚ)) :=
  decidable_of_iff (0 < b ∧ 4 * b < a * 5) (ratioGT08Iff a b).symm

theorem ratioGT07Iff (a b : Nat) :
    (a : ℚ) / (b : ℚ) > (0.7 : ℚ) ↔ (0 < b ∧ 7 * b < a * 10) := by
  have h07 : (0.7 : ℚ) = (7 : Nat) / (10 : Nat) := by norm_num
  rw [h07, natRatioGTIff a b 7 10 (by norm_num)]
  constructor
  · rintro (h | ⟨_, h⟩)
    · exact h
    · exact absurd h (Nat.not_lt_zero 7)
  · exact fun h => Or.inl h

instance (priority := 10000) decRatioGT07 (a b : Nat) :
    Decidable ((a : ℚ) / (b : ℚ) > (0.7 : ℚ)) :=
  decidable_of_iff (0 < b ∧ 7 * b < a * 10) (ratioGT07Iff a b).symm

/-- Percentage `a / b * 100` as the source computes it (0 for an empty
denominator only at guarded call sites; in `ℚ`, `a / 0 * 100 = 0`). -/
def pctOf (a b : Nat) : ℚ := (a : ℚ) / (b : ℚ) * 100

theorem pctOfGTNatIff (a b k : Nat) :
    pctOf a b > (k : ℚ) ↔ (0 < b ∧ k * b < a * 100) ∨ (b = 0 ∧ k < 0) := by
  unfold pctOf
  rcases Nat.eq_zero_or_pos b with hb | hb
  · subst hb
    simp only [Nat.cast_zero, div_zero, zero_mul]
    constructor
    · intro h
      exact absurd (lt_of_le_of_lt (Nat.cast_nonneg k) h) (lt_irrefl 0)
    · rintro (⟨h0, _⟩ | ⟨_, hp⟩)
      · exact absurd h0 (lt_irrefl 0)
      · exact absurd hp (Nat.not_lt_zero k)
  · have hbq : (0 : ℚ) < (b : ℚ) := by exact_mod_cast hb
    rw [gt_iff_lt, div_mul_eq_mul_div, lt_div_iff₀ hbq]
    constructor
    · intro h
      refine Or.inl ⟨hb, ?_⟩
      exact_mod_cast h
    · rintro (⟨_, h⟩ | ⟨h0, _⟩)
      · exact_mod_cast h
      · omega

instance (priority := 10000) decPctGT50 (a b : Nat) : Decidable (pctOf a b > (50 : ℚ)) :=
  decidable_of_iff (0 < b ∧ 50 * b < a * 100) (by
    have h : ((50 : Nat) : ℚ) = (50 : ℚ) := by norm_num
    rw [← h, pctOfGTNatIff a b 50]
    constructor
    · exact fun hx => Or.inl hx
    · rintro (hx | ⟨_, hx⟩)
      · exact hx
      · exact absurd hx (Nat.not_lt_zero 50))

instance (priority := 10000) decPctGT20 (a b : Nat) : Decidable (pctOf a b > (20 : ℚ)) :=
  decidable_of_iff (0 < b ∧ 20 * b < a * 100) (by
    have h : ((20 : Nat) : ℚ) = (20 : ℚ) := by norm_num
    rw [← h, pctOfGTNatIff a b 20]
    constructor
    · exact fun hx => Or.inl hx
    · rintro (hx | ⟨_, hx⟩)
      · exact hx
      · exact absurd hx (Nat.not_lt_zero 20))

instance (priority := 10000) decPctGT10 (a b : Nat) : Decidable (pctOf a b > (10 : ℚ)) :=
  decidable_of_iff (0 < b ∧ 10 * b < a * 100) (by
    have h : ((10 : Nat) : ℚ) = (10 : ℚ) := by norm_num
    rw [← h, pctOfGTNatIff a b 10]
    constructor
    · exact fun hx => Or.inl hx
    · rintro (hx | ⟨_, hx⟩)
      · exact hx
      · exact absurd hx (Nat.not_lt_zero 10))

instance (priority := 10000) decPctGT5 (a b : Nat) : Decidable (pctOf a b > (5 : ℚ)) :=
  decidable_of_iff (0 < b ∧ 5 * b < a * 100) (by
    have h : ((5 : Nat) : ℚ) = (5 : ℚ) := by norm_num
    rw [← h, pctOfGTNatIff a b 5]
    constructor
    · exact fun hx => Or.inl hx
    · rintro (hx | ⟨_, hx⟩)
      · exact hx
      · exact absurd hx (Nat.not_lt_zero 5))

/- ### src/services/parser.py -/

/-- Underscore runs collapsed to a single underscore
(model of `re.sub(r\x27_+\x27, \x27_\x27, name)`). -/
def collapseUnderscores : List Char → List Char
  | [] => []
  | [c] => [c]
  | c1 :: c2 :: rest =>
    if c1 = '_' && c2 = '_' then collapseUnderscores (c2 :: rest)
    else c1 :: collapseUnderscores (c2 :: rest)

/-- Leading and trailing underscores removed (model of `name.strip('_')`). -/
def stripEdgeUnderscores (l : List Char) : List Char :=
  ((l.dropWhile (fun c => c = '_')).reverse.dropWhile (fun c => c = '_')).reverse

/-- Model of `parser.normalize_column_name`.  `none` stands for a
missing header (`pd.isna(name) or name is None`).  The source substitutes
whitespace runs by one underscore, then every remaining non-word character
by an underscore, then collapses underscore runs; mapping every non-word
character to an underscore and then collapsing runs yields the same list. -/
def normalize_column_name (name : Option String) : String :=
  match name with
  | none => "unnamed_column"
  | some raw =>
    let lowered := pyLower (pyStrip raw)
    let mapped := lowered.data.map (fun c => if isWordChar c then c else '_')
    let cleaned := stripEdgeUnderscores (collapseUnderscores mapped)
    if cleaned.isEmpty then "unnamed_column" else String.mk cleaned

def lookupSeen (c : String) : List (String × Nat) → Option Nat
  | [] => none
  | (k, v) :: rest => if k = c then some v else lookupSeen c rest

def bumpSeen (c : String) : List (String × Nat) → List (String × Nat)
  | [] => []
  | (k, v) :: rest => if k = c then (k, v + 1) :: rest else (k, v) :: bumpSeen c rest

/-- Model of the loop body of `parser.ensure_unique_columns`: `seen` maps a
name to the number of times a suffix was already handed out for it. -/
def ensureUniqueAux : List String → List (String × Nat) → List String
  | [], _ => []
  | c :: rest, seen =>
    match lookupSeen c seen with
    | some k => (c ++ "_" ++ toString (k + 1)) :: ensureUniqueAux rest (bumpSeen c seen)
    | none => c :: ensureUniqueAux rest ((c, 0) :: seen)

/-- Model of `parser.ensure_unique_columns`. -/
def ensure_unique_columns (columns : List String) : List String :=
  ensureUniqueAux columns []

/- ### Python value-to-string and string-to-number models (src/services/cleaner.py) -/

/-- Fractional decimal digits of `num / den` (`num < den`), with enough fuel
for every terminating expansion met below; float cells that would print a
non-terminating expansion do not occur in the modelled pipeline. -/
def fracDigits : Nat → Nat → Nat → List Char
  | 0, _, _ => []
  | _ + 1, 0, _ => []
  | fuel + 1, num, den =>
    let num10 := num * 10
    Char.ofNat ('0'.toNat + num10 / den) :: fracDigits fuel (num10 % den) den

/-- Model of Python `str(float)` for the exact rationals standing in for
float64 values: integer part, a dot, then the fractional expansion
(`str(1000.0) = "1000.0"`, `str(2.5) = "2.5"`). -/
def floatStr (q : ℚ) : String :=
  let sign := if q < 0 then "-" else ""
  let n := q.num.natAbs
  let d := q.den
  let ip := Nat.repr (n / d)
  let frac := n % d
  if frac = 0 then sign ++ ip ++ ".0"
  else sign ++ ip ++ "." ++ String.mk (fracDigits 40 frac d)

/-- Model of Python `str(value)` on a non-missing cell value (pandas
`astype(str)` renders missing values as "nan"). -/
def strOfCell : Cell → String
  | Cell.null => "nan"
  | Cell.bool b => if b then "True" else "False"
  | Cell.int z => Int.repr z
  | Cell.float q => floatStr q
  | Cell.infVal neg => if neg then "-inf" else "inf"
  | Cell.text s => s

def dropSign : List Char → List Char
  | '+' :: rest => rest
  | '-' :: rest => rest
  | l => l

/-- Tail of a PEP-515 digit group: digits with single underscores strictly
between digits. -/
def digitGroupTail : List Char → Bool
  | [] => true
  | ['_'] => false
  | '_' :: c :: rest => c.isDigit && digitGroupTail rest
  | c :: rest => c.isDigit && digitGroupTail rest

/-- A valid Python digit group: nonempty digits, underscores only between
digits. -/
def validDigitGroup : List Char → Bool
  | [] => false
  | c :: rest => c.isDigit && digitGroupTail rest

/-- Mantissa of a Python float literal: digit groups around at most one dot,
at least one side present. -/
def validMantissa (l : List Char) : Bool :=
  match splitOnChar '.' l with
  | [a] => validDigitGroup a
  | [a, b] =>
    (a.isEmpty || validDigitGroup a) && (b.isEmpty || validDigitGroup b) &&
      !(a.isEmpty && b.isEmpty)
  | _ => false

/-- The case-insensitive special float names Python accepts. -/
def isInfNanBody (l : List Char) : Bool :=
  let low := l.map Char.toLower
  low = "inf".data || low = "infinity".data || low = "nan".data

/-- Model of whether Python `float(s)` succeeds on an already-stripped string:
optional sign, then `inf`/`infinity`/`nan` (any case) or a decimal literal
with optional exponent (PEP-515 underscores allowed). -/
def pythonFloatParses (s : String) : Bool :=
  let l := dropSign s.data
  if isInfNanBody l then true
  else
    match splitOnChar 'e' (l.map Char.toLower) with
    | [m] => validMantissa m
    | [m, ex] => validMantissa m && validDigitGroup (dropSign ex)
    | _ => false

/-- Model of `val_str.replace(',', '').replace('$', '').replace('%', '')`
composed with the strip the source applies around it. -/
def stripNumericFormatting (s : String) : String :=
  String.mk ((trimChars s.data).filter (fun c => !(c = ',' || c = '$' || c = '%')))

/- ### Date handling (src/services/cleaner.py) -/

/-- Pattern `^\d\x7b4\x7d-\d\x7b2\x7d-\d\x7b2\x7d$` (YYYY-MM-DD). -/
def matchIsoDate : List Char → Bool
  | [y1, y2, y3, y4, '-', m1, m2, '-', d1, d2] =>
    [y1, y2, y3, y4, m1, m2, d1, d2].all Char.isDigit
  | _ => false

/-- Pattern `^\d\x7b2\x7d/\d\x7b2\x7d/\d\x7b4\x7d$` (MM/DD/YYYY). -/
def matchSlashDate : List Char → Bool
  | [a, b, '/', c, d, '/', e, f, g, h] => [a, b, c, d, e, f, g, h].all Char.isDigit
  | _ => false

/-- Pattern `^\d\x7b2\x7d-\d\x7b2\x7d-\d\x7b4\x7d$` (MM-DD-YYYY). -/
def matchDashDate : List Char → Bool
  | [a, b, '-', c, d, '-', e, f, g, h] => [a, b, c, d, e, f, g, h].all Char.isDigit
  | _ => false

/-- Pattern `^\d\x7b1,2\x7d/\d\x7b1,2\x7d/\d\x7b2,4\x7d$` (M/D/YY
through M/D/YYYY). -/
def matchShortSlashDate (l : List Char) : Bool :=
  match splitOnChar '/' l with
  | [a, b, c] =>
    (decide (1 ≤ a.length) && decide (a.length ≤ 2) && isDigits a) &&
    (decide (1 ≤ b.length) && decide (b.length ≤ 2) && isDigits b) &&
    (decide (2 ≤ c.length) && decide (c.length ≤ 4) && isDigits c)
  | _ => false

/-- Pattern `^\w+ \d\x7b1,2\x7d, \d\x7b4\x7d$` (Month DD, YYYY). -/
def matchMonthNameDate (l : List Char) : Bool :=
  match splitOnChar ' ' l with
  | [w, dc, y] =>
    (!w.isEmpty && w.all isWordChar) &&
    (match dc.reverse with
     | ',' :: ds =>
       decide (1 ≤ ds.length) && decide (ds.length ≤ 2) && isDigits ds.reverse
     | _ => false) &&
    (decide (y.length = 4) && isDigits y)
  | _ => false

/-- Model of the `re.match` loop of `cleaner.is_date_column`: the stripped
string value matches one of the five date patterns. -/
def matchesDatePattern (s : String) : Bool :=
  let l := trimChars s.data
  matchIsoDate l || matchSlashDate l || matchDashDate l ||
    matchShortSlashDate l || matchMonthNameDate l

def isLeapYear (y : Nat) : Bool := (y % 4 = 0 && y % 100 ≠ 0) || y % 400 = 0

def daysInMonth (y m : Nat) : Nat :=
  if m = 2 then (if isLeapYear y then 29 else 28)
  else if m = 4 || m = 6 || m = 9 || m = 11 then 30
  else 31

/-- A calendar-valid year/month/day triple, or `none`. -/
def mkValidDate (y m d : Nat) : Option (Nat × Nat × Nat) :=
  if 1 ≤ m && m ≤ 12 && 1 ≤ d && d ≤ daysInMonth y m then some (y, m, d) else none

/-- Two-digit years as dateutil windows them: 00-68 for 2000s, 69-99 for
1900s. -/
def windowYear (y : Nat) : Nat := if y ≤ 68 then 2000 + y else 1900 + y

/-- Model of the lenient per-element parsing behind
`pd.to_datetime(..., errors='coerce')` for the text shapes the date-pattern
heuristic admits: ISO `YYYY-MM-DD`, month-first `MM-DD-YYYY`, and month-first
slash dates with two- or four-digit years (pandas default `dayfirst=False`).
Calendar-invalid components coerce to missing.  Shapes outside the modelled
formats (month names, bare numbers) also return `none`; no concrete value in
this development exercises them. -/
def parseDateLenient (s : String) : Option (Nat × Nat × Nat) :=
  let l := trimChars s.data
  match splitOnChar '-' l with
  | [a, b, c] =>
    if (decide (a.length = 4) && isDigits a) &&
       (decide (1 ≤ b.length) && decide (b.length ≤ 2) && isDigits b) &&
       (decide (1 ≤ c.length) && decide (c.length ≤ 2) && isDigits c) then
      mkValidDate (natOfDigits a) (natOfDigits b) (natOfDigits c)
    else if (decide (1 ≤ a.length) && decide (a.length ≤ 2) && isDigits a) &&
            (decide (1 ≤ b.length) && decide (b.length ≤ 2) && isDigits b) &&
            (decide (c.length = 4) && isDigits c) then
      mkValidDate (natOfDigits c) (natOfDigits a) (natOfDigits b)
    else none
  | _ =>
    match splitOnChar '/' l with
    | [a, b, c] =>
      if (decide (1 ≤ a.length) && decide (a.length ≤ 2) && isDigits a) &&
         (decide (1 ≤ b.length) && decide (b.length ≤ 2) && isDigits b) && isDigits c then
        if c.length = 4 then mkValidDate (natOfDigits c) (natOfDigits a) (natOfDigits b)
        else if c.length = 2 then
          mkValidDate (windowYear (natOfDigits c)) (natOfDigits a) (natOfDigits b)
        else none
      else none
    | _ => none

/-- Model of element-wise `pd.to_datetime(..., errors='coerce')`: missing
stays missing (NaT), text is parsed leniently, anything else is out of the
modelled scope and coerces to missing. -/
def toDatetimeCoerce : Cell → Option (Nat × Nat × Nat)
  | Cell.text s => parseDateLenient s
  | _ => none

def padNat (w n : Nat) : String :=
  let s := Nat.repr n
  String.mk (List.replicate (w - s.length) '0') ++ s

/-- Model of `dt.strftime('%Y-%m-%d')`. -/
def formatYMD : Nat × Nat × Nat → String
  | (y, m, d) => padNat 4 y ++ "-" ++ padNat 2 m ++ "-" ++ padNat 2 d

/- ### Column heuristics (cleaner.is_date_column, cleaner.should_be_numeric) -/

/-- Model of `series.dropna().head(100)`. -/
def sampleOf (cells : List Cell) : List Cell :=
  (cells.filter (fun c => !c.isNull)).take 100

/-- Sampled values matching one of the date patterns (the source applies
`str(val).strip()` before matching; `matchesDatePattern` strips). -/
def dateSampleCount (cells : List Cell) : Nat :=
  (sampleOf cells).countP (fun c => matchesDatePattern (strOfCell c))

/-- Model of `cleaner.is_date_column`. -/
def is_date_column (cells : List Cell) : Bool :=
  let sample := sampleOf cells
  if sample.isEmpty then false
  else decide ((dateSampleCount cells : ℚ) / (sample.length : ℚ) > (0.7 : ℚ))

/-- Sampled values on which `float(...)` succeeds after the formatting strip
(`str(val).strip()` then removal of commas, dollar signs, percent signs). -/
def numericSampleCount (cells : List Cell) : Nat :=
  (sampleOf cells).countP (fun c => pythonFloatParses (stripNumericFormatting (strOfCell c)))

/-- Model of `cleaner.should_be_numeric`. -/
def should_be_numeric (cells : List Cell) : Bool :=
  let sample := sampleOf cells
  if sample.isEmpty then false
  else decide ((numericSampleCount cells : ℚ) / (sample.length : ℚ) > (0.8 : ℚ))

/- ### pd.to_numeric model -/

/-- Exponent written by a to_numeric literal, as an integer. -/
def signedExponent (l : List Char) : Int :=
  match l with
  | '-' :: rest => -(natOfDigits rest : Int)
  | '+' :: rest => (natOfDigits rest : Int)
  | rest => (natOfDigits rest : Int)

def qPow10 : Int → ℚ
  | Int.ofNat n => (10 : ℚ) ^ n
  | Int.negSucc n => ((10 : ℚ) ^ (n + 1))⁻¹

/-- Model of the pandas numeric parser behind
`pd.to_numeric(..., errors='coerce')` on a prepared string: sign, decimal
digits with at most one dot, optional exponent, case-insensitive
`inf`/`infinity` (kept as an infinite float) and `nan` (missing); no
underscores.  All-integer text yields an integer value, anything with a dot
or exponent a float. -/
def toNumericParse (s : String) : Option Cell :=
  let low := s.data.map Char.toLower
  let neg := decide (low.head? = some '-')
  let body := dropSign low
  if body = "inf".data || body = "infinity".data then some (Cell.infVal neg)
  else if body = "nan".data then none
  else
    let sgn : Int := if neg then -1 else 1
    match splitOnChar 'e' body with
    | [m] =>
      (match splitOnChar '.' m with
       | [a] => if a.isEmpty || !isDigits a then none
                else some (Cell.int (sgn * (natOfDigits a : Int)))
       | [a, b] =>
         if (a.isEmpty && b.isEmpty) || !isDigits a || !isDigits b then none
         else some (Cell.float ((sgn : ℚ) * (natOfDigits (a ++ b) : ℚ) / (10 : ℚ) ^ b.length))
       | _ => none)
    | [m, ex] =>
      if (dropSign ex).isEmpty || !isDigits (dropSign ex) then none
      else
        (match splitOnChar '.' m with
         | [a] => if a.isEmpty || !isDigits a then none
                  else some (Cell.float ((sgn : ℚ) * (natOfDigits a : ℚ) * qPow10 (signedExponent ex)))
         | [a, b] =>
           if (a.isEmpty && b.isEmpty) || !isDigits a || !isDigits b then none
           else some (Cell.float ((sgn : ℚ) * (natOfDigits (a ++ b) : ℚ) / (10 : ℚ) ^ b.length *
                        qPow10 (signedExponent ex)))
         | _ => none)
    | _ => none

/- ### The cleaning log and per-column transforms (src/services/cleaner.py) -/

/-- Structured record of one cleaning-log entry.  The source stores dicts
with an operation tag, a formatted description, and the numeric fields shown
here; the description strings only interpolate these same fields, so the
model keeps the structured data (as the spec's design notes also ask). -/
inductive LogEntry where
  | removeEmptyRows (count : Nat)
  | removeEmptyColumns (count : Nat) (columns : List String)
  | trimWhitespace (count : Nat)
  | convertDates (column : String) (convertedCount failedCount : Nat)
  | coerceToNumeric (column : String) (coercedCount : Nat)
  | convertToNumeric (column : String)
  | removeInfinity (column : String) (count : Nat)
  | normalizeText (column : String) (count : Nat)
deriving DecidableEq

def setCol (f : Frame) (i : Nat) (c : Column) : Frame :=
  { f with cols := f.cols.set i c }

/-- Model of `pd.api.types.is_numeric_dtype` on a column dtype (true for
integer, float and bool dtypes). -/
def isNumericDtype : Dtype → Bool
  | Dtype.int64 => true
  | Dtype.float64 => true
  | Dtype.boolDt => true
  | _ => false

/-- Model of `cleaner.convert_to_date`.  `pd.to_datetime(errors='coerce')`
turns each unparseable or missing value into NaT and does not raise, so the
source's `except` arm is unreachable; when no value parses the column is left
as the all-NaT datetime column (no log entry), and when at least one parses
the column is reformatted to `YYYY-MM-DD` text with NaT replaced by missing
and a `convert_dates` entry is logged. -/
def convert_to_date (f : Frame) (i : Nat) : Frame × List LogEntry :=
  match f.cols.get? i with
  | none => (f, [])
  | some c =>
    let parsed := c.cells.map toDatetimeCoerce
    let convertedCount := parsed.countP (fun o => o.isSome)
    let failedCount := c.cells.countP (fun x => !x.isNull) - convertedCount
    if convertedCount > 0 then
      (setCol f i { c with dtype := Dtype.object
                           cells := parsed.map (fun o =>
                             match o with
                             | some d => Cell.text (formatYMD d)
                             | none => Cell.null) },
       [LogEntry.convertDates c.name convertedCount failedCount])
    else
      (setCol f i { c with dtype := Dtype.datetime64
                           cells := parsed.map (fun _ => Cell.null) }, [])

/-- The blank/NA-like tokens `cleaner.convert_to_numeric` replaces by
missing. -/
def naTokens : List String := ["", "nan", "None", "null", "N/A", "n/a", "-"]

/-- Model of `cleaner.convert_to_numeric`: `astype(str)` renders every cell
(missing becomes "nan"/"None", both NA tokens), formatting characters are
removed, the result is stripped, NA-like tokens become missing, the rest is
parsed with coercion to missing on failure.  The result dtype is integer
only when every cell parsed as an integer and none is missing, as
`pd.to_numeric` infers; in a float column integer values are stored as
floats. -/
def convert_to_numeric (f : Frame) (i : Nat) : Frame × List LogEntry :=
  match f.cols.get? i with
  | none => (f, [])
  | some c =>
    let originalNonNull := c.cells.countP (fun x => !x.isNull)
    let parsedCells := c.cells.map (fun x =>
      match x with
      | Cell.null => Cell.null
      | x =>
        let sv := stripNumericFormatting (strOfCell x)
        if naTokens.contains sv then Cell.null
        else
          match toNumericParse sv with
          | some v => v
          | none => Cell.null)
    let newNonNull := parsedCells.countP (fun x => !x.isNull)
    let coercedCount := originalNonNull - newNonNull
    let allInt := parsedCells.all (fun x =>
      match x with
      | Cell.int _ => true
      | _ => false)
    let anyNull := parsedCells.any (fun x => x.isNull)
    let dt := if !anyNull && allInt then Dtype.int64 else Dtype.float64
    let finalCells :=
      if dt = Dtype.float64 then
        parsedCells.map (fun x =>
          match x with
          | Cell.int z => Cell.float (z : ℚ)
          | x => x)
      else parsedCells
    (setCol f i { c with dtype := dt, cells := finalCells },
     if coercedCount > 0 then [LogEntry.coerceToNumeric c.name coercedCount]
     else [LogEntry.convertToNumeric c.name])

/-- Model of `cleaner.clean_numeric_column`: on float columns, infinities are
replaced by missing and logged; other numeric dtypes cannot hold infinities. -/
def clean_numeric_column (f : Frame) (i : Nat) : Frame × List LogEntry :=
  match f.cols.get? i with
  | none => (f, [])
  | some c =>
    if c.dtype = Dtype.float64 then
      let infCount := c.cells.countP (fun x =>
        match x with
        | Cell.infVal _ => true
        | _ => false)
      if infCount > 0 then
        (setCol f i { c with cells := c.cells.map (fun x =>
           match x with
           | Cell.infVal _ => Cell.null
           | x => x) },
         [LogEntry.removeInfinity c.name infCount])
      else (f, [])
    else (f, [])

/-- Model of `cleaner.normalize_text_column`: when at least one non-missing
cell changes under lowercasing of its string form, every non-missing cell is
assigned that lowercased string (the masked `astype(str)` assignment) and
the change count is logged; otherwise the column is untouched. -/
def normalize_text_column (f : Frame) (i : Nat) : Frame × List LogEntry :=
  match f.cols.get? i with
  | none => (f, [])
  | some c =>
    let nonNullCount := c.cells.countP (fun x => !x.isNull)
    if nonNullCount = 0 then (f, [])
    else
      let changes := c.cells.countP (fun x =>
        !x.isNull && decide (pyLower (strOfCell x) ≠ strOfCell x))
      if changes > 0 then
        (setCol f i { c with cells := c.cells.map (fun x =>
           if x.isNull then x else Cell.text (pyLower (strOfCell x))) },
         [LogEntry.normalizeText c.name changes])
      else (f, [])

/-- Model of `cleaner.process_column` (dispatch on the classifier verdict). -/
def process_column (f : Frame) (i : Nat) : Frame × List LogEntry :=
  match f.cols.get? i with
  | none => (f, [])
  | some c =>
    if isNumericDtype c.dtype then clean_numeric_column f i
    else if c.dtype = Dtype.datetime64 then (f, [])
    else if is_date_column c.cells then convert_to_date f i
    else if should_be_numeric c.cells then convert_to_numeric f i
    else normalize_text_column f i

/- ### The frame-level stages of cleaner.clean_dataframe -/

def rowAllNull (f : Frame) (i : Nat) : Bool :=
  f.cols.all (fun c => (c.cells.getD i Cell.null).isNull)

/-- Stage 1, `df.dropna(how='all')`: rows whose every cell is missing are
removed (with no columns, every row is vacuously all-missing, as in pandas). -/
def dropEmptyRows (f : Frame) : Frame × List LogEntry :=
  let keep := (List.range f.nrows).filter (fun i => !rowAllNull f i)
  let f' : Frame := { nrows := keep.length
                      cols := f.cols.map (fun c =>
                        { c with cells := keep.map (fun i => c.cells.getD i Cell.null) }) }
  let removed := f.nrows - keep.length
  (f', if removed > 0 then [LogEntry.removeEmptyRows removed] else [])

def colAllNull (c : Column) : Bool := c.cells.all (fun x => x.isNull)

/-- Stage 2, `df.dropna(axis=1, how='all')`: columns whose every cell is
missing are removed and their names logged (with no rows, every column is
vacuously all-missing, as in pandas). -/
def dropEmptyColumns (f : Frame) : Frame × List LogEntry :=
  let emptyNames := (f.cols.filter colAllNull).map (fun c => c.name)
  let f' : Frame := { f with cols := f.cols.filter (fun c => !colAllNull c) }
  let removed := f.cols.length - f'.cols.length
  (f', if removed > 0 then [LogEntry.removeEmptyColumns removed emptyNames] else [])

/-- Stage 3, whitespace trimming: in every object column the masked
`astype(str)` assignment writes the stripped string form of every
non-missing cell back (even when nothing changed), and the number of cells
actually changed across all object columns is logged when positive. -/
def trimWhitespaceStage (f : Frame) : Frame × List LogEntry :=
  let changedIn : Column → Nat := fun c =>
    if c.dtype = Dtype.object then
      c.cells.countP (fun x => !x.isNull && decide (pyStrip (strOfCell x) ≠ strOfCell x))
    else 0
  let total := (f.cols.map changedIn).sum
  let f' : Frame := { f with cols := f.cols.map (fun c =>
    if c.dtype = Dtype.object then
      { c with cells := c.cells.map (fun x =>
          if x.isNull then x else Cell.text (pyStrip (strOfCell x))) }
    else c) }
  (f', if total > 0 then [LogEntry.trimWhitespace total] else [])

/-- Stage 4: `process_column` over every column, left to right, logs
concatenated in order.  The source iterates over the column labels captured
from `df.columns` (no stage-4 transform adds or removes a column, and labels
select columns uniquely in the frames the pipeline builds), which positional
iteration models. -/
def processColumns (f : Frame) : Frame × List LogEntry :=
  (List.range f.cols.length).foldl
    (fun acc i =>
      let r := process_column acc.1 i
      (r.1, acc.2 ++ r.2))
    (f, [])

/-- Model of `cleaner.clean_dataframe` as a pure transform of the working
frame (the one the source's `df = df.copy()` creates): the four stages in
order, logs concatenated. -/
def clean_dataframe (f : Frame) : Frame × List LogEntry :=
  let r1 := dropEmptyRows f
  let r2 := dropEmptyColumns r1.1
  let r3 := trimWhitespaceStage r2.1
  let r4 := processColumns r3.1
  (r4.1, r1.2 ++ r2.2 ++ r3.2 ++ r4.2)

/-- Python-level aliasing model of one call `clean_dataframe(df)`: the heap
is a list of frame slots, the argument is a slot index.  The function body
first rebinds its local `df` to `df.copy()` — a freshly allocated slot — and
from then on every in-place statement (`df[col] = ...`, `df.loc[...] = ...`,
`df = df.dropna(...)` rebindings) reads and writes only the working slot, so
the composite effect is one write of the fully cleaned frame to the fresh
slot. -/
def clean_dataframe_heap (heap : List Frame) (i : Nat) :
    List Frame × Nat × List LogEntry :=
  let df := heap.getD i { nrows := 0, cols := [] }
  let fresh := heap.length
  let heap1 := heap ++ [df]
  let r := clean_dataframe df
  (heap1.set fresh r.1, fresh, r.2)

/- ### src/services/validator.py -/

inductive Severity where
  | low
  | medium
  | high
deriving DecidableEq

/-- One validation issue; the schema's `{column_name, issue_type, severity,
description}` with the description's interpolated data kept structurally
(counts, percentages, affected row indices, per-type-name counts). -/
inductive ValidationIssue where
  | missingValue (column : String) (sev : Severity) (nullCount : Nat) (nullPct : ℚ)
      (rows : List Nat)
  | duplicateRow (sev : Severity) (count : Nat) (pct : ℚ) (rows : List Nat)
  | mixedType (column : String) (sev : Severity) (typeCounts : List (String × Nat))
deriving DecidableEq

def ValidationIssue.sev : ValidationIssue → Severity
  | .missingValue _ s _ _ _ => s
  | .duplicateRow s _ _ _ => s
  | .mixedType _ s _ => s

def colNullCount (c : Column) : Nat := c.cells.countP (fun x => x.isNull)

/-- Model of `validator.check_missing_values`. -/
def check_missing_values (f : Frame) : List ValidationIssue :=
  f.cols.filterMap (fun c =>
    let nullCount := colNullCount c
    if nullCount > 0 then
      let sev :=
        if pctOf nullCount f.nrows > (50 : ℚ) then Severity.high
        else if pctOf nullCount f.nrows > (20 : ℚ) then Severity.medium
        else Severity.low
      let rows := ((List.range f.nrows).filter
        (fun i => (c.cells.getD i Cell.null).isNull)).take 10
      some (ValidationIssue.missingValue c.name sev nullCount
        (pctOf nullCount f.nrows) rows)
    else none)

/-- Row `i` of a frame, as the tuple pandas hashes for `df.duplicated`. -/
def rowAt (f : Frame) (i : Nat) : List Cell :=
  f.cols.map (fun c => c.cells.getD i Cell.null)

/-- Model of `df.duplicated(keep='first')` at row `i`: some strictly earlier
row is equal (missing values compare equal, as pandas treats NaN here). -/
def rowDuplicated (f : Frame) (i : Nat) : Bool :=
  (List.range i).any (fun j => decide (rowAt f j = rowAt f i))

def duplicateCount (f : Frame) : Nat :=
  (List.range f.nrows).countP (fun i => rowDuplicated f i)

/-- Model of `validator.check_duplicates`. -/
def check_duplicates (f : Frame) : List ValidationIssue :=
  let dc := duplicateCount f
  if dc > 0 then
    let sev :=
      if pctOf dc f.nrows > (50 : ℚ) then Severity.high
      else if pctOf dc f.nrows > (10 : ℚ) then Severity.medium
      else Severity.low
    [ValidationIssue.duplicateRow sev dc (pctOf dc f.nrows)
      (((List.range f.nrows).filter (fun i => rowDuplicated f i)).take 20)]
  else []

/-- The runtime type name `type(x).__name__` of a non-missing cell, by
column dtype: object columns hold plain Python values, numeric and datetime
columns hold numpy/pandas scalars. -/
def pyTypeName (dt : Dtype) (c : Cell) : String :=
  match dt with
  | Dtype.int64 => "int64"
  | Dtype.float64 => "float64"
  | Dtype.boolDt => "bool_"
  | Dtype.datetime64 => "Timestamp"
  | Dtype.object =>
    match c with
    | Cell.null => "NoneType"
    | Cell.bool _ => "bool"
    | Cell.int _ => "int"
    | Cell.float _ => "float"
    | Cell.infVal _ => "float"
    | Cell.text _ => "str"

/-- First-seen-order deduplication (model of pandas `Series.unique`). -/
def dedupAux : List String → List String → List String
  | [], _ => []
  | x :: rest, seen =>
    if seen.contains x then dedupAux rest seen
    else x :: dedupAux rest (x :: seen)

def dedupFirstSeen (l : List String) : List String := dedupAux l []

def insertByCount (x : String × Nat) : List (String × Nat) → List (String × Nat)
  | [] => [x]
  | y :: rest => if x.2 ≥ y.2 then x :: y :: rest else y :: insertByCount x rest

/-- Model of `value_counts().to_dict()`: counts per type name, most frequent
first (stable on ties). -/
def valueCountsOf (l : List String) : List (String × Nat) :=
  ((dedupFirstSeen l).map (fun k => (k, l.count k))).foldr insertByCount []

def numericTypeNames : List String :=
  ["int", "float", "int64", "float64", "int32", "float32"]

/-- Model of `validator.check_mixed_types`, including the source's filter of
`NoneType`/`float` tags when at most two distinct kinds appear. -/
def check_mixed_types (f : Frame) : List ValidationIssue :=
  f.cols.filterMap (fun c =>
    let nonNull := c.cells.filter (fun x => !x.isNull)
    if nonNull.isEmpty then none
    else
      let names := nonNull.map (pyTypeName c.dtype)
      let uniq := dedupFirstSeen names
      let filtered := uniq.filter (fun t =>
        !(t = "NoneType" || t = "float") || decide (uniq.length > 2))
      if filtered.length > 1 &&
         !(filtered.all (fun t => numericTypeNames.contains t)) then
        some (ValidationIssue.mixedType c.name Severity.medium (valueCountsOf names))
      else none)

/-- Model of `validator.validate_dataframe`: the three checks concatenated
in order. -/
def validate_dataframe (f : Frame) : List ValidationIssue :=
  check_missing_values f ++ check_duplicates f ++ check_mixed_types f

/- ### validator.calculate_status -/

inductive DataStatus where
  | ready
  | warning
  | notReady
deriving DecidableEq

/-- The status reason, kept structurally: which condition the source's
decision chain reported, with the interpolated value. -/
inductive StatusReason where
  | highIssues (n : Nat)
  | tooManyMissing (pct : ℚ)
  | tooManyDuplicates (pct : ℚ)
  | mediumIssues (n : Nat)
  | someMissing (pct : ℚ)
  | good
deriving DecidableEq

structure ValidationSummary where
  total_rows : Nat
  total_columns : Nat
  missing_value_count : Nat
  duplicate_row_count : Nat
  issue_count : Nat
  status : DataStatus
  status_reason : StatusReason
deriving DecidableEq

def missingCount (f : Frame) : Nat := (f.cols.map colNullCount).sum

def totalCells (f : Frame) : Nat := f.nrows * f.ncols

/-- `missing_pct` of `calculate_status` (explicitly 0 when the frame has no
cells, as the source guards). -/
def missingPct (f : Frame) : ℚ :=
  if totalCells f > 0 then pctOf (missingCount f) (totalCells f) else 0

/-- `duplicate_pct` of `calculate_status` (explicitly 0 when the frame has
no rows, as the source guards). -/
def duplicatePct (f : Frame) : ℚ :=
  if f.nrows > 0 then pctOf (duplicateCount f) f.nrows else 0

def countSev (issues : List ValidationIssue) (s : Severity) : Nat :=
  issues.countP (fun i => decide (i.sev = s))

/-- Model of `validator.calculate_status`. -/
def calculate_status (f : Frame) (issues : List ValidationIssue) : ValidationSummary :=
  let highSeverity := countSev issues Severity.high
  let mediumSeverity := countSev issues Severity.medium
  let stReason :=
    if highSeverity > 0 ∨ missingPct f > 20 ∨ duplicatePct f > 50 then
      (DataStatus.notReady,
        if highSeverity > 0 then StatusReason.highIssues highSeverity
        else if missingPct f > 20 then StatusReason.tooManyMissing (missingPct f)
        else StatusReason.tooManyDuplicates (duplicatePct f))
    else if mediumSeverity > 0 ∨ missingPct f > 5 then
      (DataStatus.warning,
        if mediumSeverity > 0 then StatusReason.mediumIssues mediumSeverity
        else StatusReason.someMissing (missingPct f))
    else (DataStatus.ready, StatusReason.good)
  { total_rows := f.nrows
    total_columns := f.ncols
    missing_value_count := missingCount f
    duplicate_row_count := duplicateCount f
    issue_count := issues.length
    status := stReason.1
    status_reason := stReason.2 }

/- ### Concrete frames used by the claims -/

/-- The spec's numeric-boundary sample: exactly 4 of 5 values parse (80%). -/
def numericBoundarySample : List Cell :=
  [Cell.text "1,000", Cell.text "$2,500", Cell.text "3,000",
   Cell.text "4000", Cell.text "bad"]

def numericBoundaryFrame : Frame :=
  { nrows := 5
    cols := [{ name := "c", dtype := Dtype.object, cells := numericBoundarySample }] }

/-- One object column holding a single already-canonical date string. -/
def dateFrame1 : Frame :=
  { nrows := 1
    cols := [{ name := "d", dtype := Dtype.object, cells := [Cell.text "2024-01-05"] }] }

/-- The spec's date demo column: two parseable values around one
calendar-invalid one. -/
def dateDemoFrame : Frame :=
  { nrows := 3
    cols := [{ name := "d", dtype := Dtype.object
               cells := [Cell.text "2024-01-05", Cell.text "2024-13-40",
                         Cell.text "01/05/2024"] }] }

/-- A date-pattern column whose only value is calendar-invalid: the whole
column fails to parse. -/
def badDateFrame : Frame :=
  { nrows := 1
    cols := [{ name := "d", dtype := Dtype.object, cells := [Cell.text "2024-13-40"] }] }

/-- Ten rows, the last two full duplicates of the first two. -/
def dupDemoFrame : Frame :=
  { nrows := 10
    cols := [{ name := "v", dtype := Dtype.int64
               cells := [Cell.int 1, Cell.int 2, Cell.int 3, Cell.int 4, Cell.int 5,
                         Cell.int 6, Cell.int 7, Cell.int 8, Cell.int 1, Cell.int 2] }] }

/-- Object column with values `[1, 1.5, "two"]`. -/
def mixedKindsFrame : Frame :=
  { nrows := 3
    cols := [{ name := "c", dtype := Dtype.object
               cells := [Cell.int 1, Cell.float (Rat.mk' 3 2), Cell.text "two"] }] }

/-- Object column with values `[1, 1.5, 2]` (numeric kinds only). -/
def numericKindsFrame : Frame :=
  { nrows := 3
    cols := [{ name := "c", dtype := Dtype.object
               cells := [Cell.int 1, Cell.float (Rat.mk' 3 2), Cell.int 2] }] }

/- ### Sanity checks: the embedded functions evaluate as the source does -/

example : normalize_column_name (some "  First Name ") = "first_name" := by decide

example : normalize_column_name (some " !! ") = "unnamed_column" := by decide

example : ensure_unique_columns ["a", "b", "a", "a"] = ["a", "b", "a_1", "a_2"] := by decide

example : pythonFloatParses (stripNumericFormatting "1,000") = true := by decide

example : pythonFloatParses (stripNumericFormatting "$2,500") = true := by decide

example : pythonFloatParses (stripNumericFormatting "bad") = false := by decide

example : pythonFloatParses "1_000" = true := by decide

example : pythonFloatParses "1__0" = false := by decide

example : pythonFloatParses "-1.5e-3" = true := by decide

example : pythonFloatParses ".5" = true := by decide

example : pythonFloatParses "5." = true := by decide

example : pythonFloatParses "" = false := by decide

example : pythonFloatParses "NaN" = true := by decide

example : pythonFloatParses "True" = false := by decide

example : matchesDatePattern "2024-01-05" = true := by decide

example : matchesDatePattern "2024-13-40" = true := by decide

example : matchesDatePattern "01/05/2024" = true := by decide

example : matchesDatePattern "1,000" = false := by decide

example : matchesDatePattern "January 5, 2024" = true := by decide

example : matchesDatePattern "bad" = false := by decide

example : parseDateLenient "2024-01-05" = some (2024, 1, 5) := by decide

example : parseDateLenient "2024-13-40" = none := by decide

example : parseDateLenient "01/05/2024" = some (2024, 1, 5) := by decide

example : parseDateLenient "2024-02-29" = some (2024, 2, 29) := by decide

example : parseDateLenient "2023-02-29" = none := by decide

example : formatYMD (2024, 1, 5) = "2024-01-05" := by decide

example : is_date_column [Cell.text "2024-01-05"] = true := by decide

example : is_date_column [Cell.text "x"] = false := by decide

example :
    should_be_numeric [Cell.text "1,000", Cell.text "2,500", Cell.text "3,000",
      Cell.text "4,000", Cell.text "x", Cell.text "9"] = true := by decide

example : toNumericParse "1000" = some (Cell.int 1000) := by decide

example : toNumericParse "-7" = some (Cell.int (-7)) := by decide

example : toNumericParse "bad" = none := by decide

example : toNumericParse "inf" = some (Cell.infVal false) := by decide

example : toNumericParse "nan" = none := by decide

example : toNumericParse "1_0" = none := by decide

/- ### The claims -/

/-- C1: the numeric-candidate heuristic classifies a column as numeric
exactly when the non-missing sample is nonempty and strictly more than 80%
of it parses as numeric after stripping commas, dollar and percent signs
(`4 * sampleSize < 5 * parsedCount`); on the boundary sample
`["1,000", "$2,500", "3,000", "4000", "bad"]` exactly 4 of 5 parse, the
heuristic answers false, and `process_column` leaves the column unchanged
and logs nothing. -/
theorem C1_numeric_candidate_threshold :
    (∀ cells : List Cell,
      should_be_numeric cells = true ↔
        (sampleOf cells ≠ [] ∧
          4 * (sampleOf cells).length < 5 * numericSampleCount cells)) ∧
    numericSampleCount numericBoundarySample = 4 ∧
    (sampleOf numericBoundarySample).length = 5 ∧
    should_be_numeric numericBoundarySample = false ∧
    process_column numericBoundaryFrame 0 = (numericBoundaryFrame, []) := by
  refine ⟨fun cells => ?_, by decide, by decide, by decide, by decide⟩
  simp only [should_be_numeric]
  by_cases hs : (sampleOf cells).isEmpty
  · rw [if_pos hs]
    simp only [Bool.false_eq_true, false_iff]
    rintro ⟨hne, _⟩
    exact hne (List.isEmpty_iff.mp hs)
  · rw [if_neg hs, decide_eq_true_eq, ratioGT08Iff]
    have hne : sampleOf cells ≠ [] := fun h => hs (by simp [h])
    constructor
    · rintro ⟨-, h⟩
      exact ⟨hne, by omega⟩
    · rintro ⟨-, h⟩
      exact ⟨List.length_pos.mpr hne, by omega⟩

/-- C2 (code-bug record): cleaning is not idempotent in the log.  On a frame
whose single column holds the already-canonical date text "2024-01-05", the
first clean changes nothing (the output frame equals the input) yet logs a
`convert_dates` entry, and cleaning the cleaned frame again logs the same
entry instead of an empty log. -/
theorem C2_second_clean_logs_again :
    clean_dataframe dateFrame1 = (dateFrame1, [LogEntry.convertDates "d" 1 0]) ∧
    (clean_dataframe (clean_dataframe dateFrame1).1).2 = [LogEntry.convertDates "d" 1 0] ∧
    (clean_dataframe (clean_dataframe dateFrame1).1).2 ≠ [] := by decide

/-- C3: the status scorer returns NOT_READY exactly when there is a
HIGH-severity issue or missing% exceeds 20 or duplicate% exceeds 50, WARNING
exactly otherwise-when there is a MEDIUM issue or missing% exceeds 5, READY
otherwise; the reason follows the priority HIGH issues, then missing%, then
duplicate%, then MEDIUM issues, then missing%; and one HIGH issue forces
NOT_READY whatever the statistics. -/
theorem C3_status_scoring (f : Frame) (issues : List ValidationIssue) :
    ((calculate_status f issues).status = DataStatus.notReady ↔
      (countSev issues Severity.high > 0 ∨ missingPct f > 20 ∨ duplicatePct f > 50)) ∧
    ((calculate_status f issues).status = DataStatus.warning ↔
      (¬(countSev issues Severity.high > 0 ∨ missingPct f > 20 ∨ duplicatePct f > 50) ∧
        (countSev issues Severity.medium > 0 ∨ missingPct f > 5))) ∧
    ((calculate_status f issues).status = DataStatus.ready ↔
      (¬(countSev issues Severity.high > 0 ∨ missingPct f > 20 ∨ duplicatePct f > 50) ∧
        ¬(countSev issues Severity.medium > 0 ∨ missingPct f > 5))) ∧
    ((calculate_status f issues).status_reason =
      (if countSev issues Severity.high > 0 then
        StatusReason.highIssues (countSev issues Severity.high)
       else if missingPct f > 20 then StatusReason.tooManyMissing (missingPct f)
       else if duplicatePct f > 50 then StatusReason.tooManyDuplicates (duplicatePct f)
       else if countSev issues Severity.medium > 0 then
        StatusReason.mediumIssues (countSev issues Severity.medium)
       else if missingPct f > 5 then StatusReason.someMissing (missingPct f)
       else StatusReason.good)) ∧
    (∀ i ∈ issues, i.sev = Severity.high →
      (calculate_status f issues).status = DataStatus.notReady) := by
  have hmem : ∀ i ∈ issues, i.sev = Severity.high →
      countSev issues Severity.high > 0 := by
    intro i hi hsev
    exact List.countP_pos_iff.mpr ⟨i, hi, by simp [hsev]⟩
  have hchar :
      ((calculate_status f issues).status = DataStatus.notReady ↔
        (countSev issues Severity.high > 0 ∨ missingPct f > 20 ∨ duplicatePct f > 50)) ∧
      ((calculate_status f issues).status = DataStatus.warning ↔
        (¬(countSev issues Severity.high > 0 ∨ missingPct f > 20 ∨ duplicatePct f > 50) ∧
          (countSev issues Severity.medium > 0 ∨ missingPct f > 5))) ∧
      ((calculate_status f issues).status = DataStatus.ready ↔
        (¬(countSev issues Severity.high > 0 ∨ missingPct f > 20 ∨ duplicatePct f > 50) ∧
          ¬(countSev issues Severity.medium > 0 ∨ missingPct f > 5))) ∧
      ((calculate_status f issues).status_reason =
        (if countSev issues Severity.high > 0 then
          StatusReason.highIssues (countSev issues Severity.high)
         else if missingPct f > 20 then StatusReason.tooManyMissing (missingPct f)
         else if duplicatePct f > 50 then StatusReason.tooManyDuplicates (duplicatePct f)
         else if countSev issues Severity.medium > 0 then
          StatusReason.mediumIssues (countSev issues Severity.medium)
         else if missingPct f > 5 then StatusReason.someMissing (missingPct f)
         else StatusReason.good)) := by
    by_cases hhi : countSev issues Severity.high > 0 <;>
    by_cases hm20 : missingPct f > 20 <;>
    by_cases hd50 : duplicatePct f > 50 <;>
    by_cases hmed : countSev issues Severity.medium > 0 <;>
    by_cases hm5 : missingPct f > 5 <;>
    simp [calculate_status, hhi, hm20, hd50, hmed, hm5]
  exact ⟨hchar.1, hchar.2.1, hchar.2.2.1, hchar.2.2.2,
    fun i hi hsev => hchar.1.mpr (Or.inl (hmem i hi hsev))⟩

/-- C4: on the column `[1, 1.5, "two"]` the mixed-type check emits exactly
one MEDIUM mixed-type issue for that column, and on `[1, 1.5, 2]` (integer
and float kinds only) it emits none. -/
theorem C4_mixed_type_check :
    (∃ typeCounts, check_mixed_types mixedKindsFrame =
      [ValidationIssue.mixedType "c" Severity.medium typeCounts]) ∧
    check_mixed_types numericKindsFrame = [] :=
  ⟨⟨[("int", 1), ("float", 1), ("str", 1)], by decide⟩, by decide⟩

/-- C5: on the date column `["2024-01-05", "2024-13-40", "01/05/2024"]` the
date heuristic fires, conversion logs exactly one entry with
`converted_count = 2` and `failed_count = 1`, the unparseable value becomes
missing, and the full clean emits exactly that one log entry. -/
theorem C5_date_conversion_counts :
    is_date_column [Cell.text "2024-01-05", Cell.text "2024-13-40",
      Cell.text "01/05/2024"] = true ∧
    convert_to_date dateDemoFrame 0 =
      ({ nrows := 3
         cols := [{ name := "d", dtype := Dtype.object
                    cells := [Cell.text "2024-01-05", Cell.null,
                              Cell.text "2024-01-05"] }] },
       [LogEntry.convertDates "d" 2 1]) ∧
    (clean_dataframe dateDemoFrame).2 = [LogEntry.convertDates "d" 2 1] := by decide

/-- C6 (code-bug record): the uniqueness pass can return duplicate names.
The raw headers `["a", "a", "a_1"]` normalize to themselves, and
`ensure_unique_columns` renames the second "a" to "a_1", colliding with the
third header, so the output is not pairwise distinct. -/
theorem C6_unique_suffix_collision :
    (["a", "a", "a_1"].map (fun s => normalize_column_name (some s))) =
      ["a", "a", "a_1"] ∧
    ensure_unique_columns ["a", "a", "a_1"] = ["a", "a_1", "a_1"] ∧
    ¬ (["a", "a_1", "a_1"] : List String).Nodup := by decide

/-- C7 counterexample: on the date-candidate column whose only value is the
calendar-invalid "2024-13-40" the whole-column parse fails, no log entry is
appended — but the column is not left unchanged: its value becomes missing. -/
theorem C7_counterexample_values_changed :
    is_date_column [Cell.text "2024-13-40"] = true ∧
    (convert_to_date badDateFrame 0).2 = [] ∧
    ((convert_to_date badDateFrame 0).1.cols.getD 0
      { name := "", dtype := Dtype.object, cells := [] }).cells = [Cell.null] ∧
    (convert_to_date badDateFrame 0).1 ≠ badDateFrame := by decide

/-- C7 (amended): on a column on which the full-column date parse fails
entirely (every cell coerces to NaT), the transformer appends no cleaning-log
entry and raises no error, and the column's cells all become missing — they
are not left unchanged (the source leaves the column unchanged only in the
unreachable exception arm). -/
theorem C7_total_parse_failure (f : Frame) (i : Nat) (c : Column)
    (hc : f.cols.get? i = some c)
    (hfail : ∀ x ∈ c.cells, toDatetimeCoerce x = none) :
    convert_to_date f i =
      (setCol f i { c with dtype := Dtype.datetime64
                           cells := c.cells.map (fun _ => Cell.null) }, []) := by
  have hcc : (c.cells.map toDatetimeCoerce).countP (fun o => o.isSome) = 0 := by
    rw [List.countP_eq_zero]
    intro o ho
    rcases List.mem_map.mp ho with ⟨x, hx, rfl⟩
    simp [hfail x hx]
  simp only [convert_to_date, hc, hcc, gt_iff_lt, lt_irrefl, if_false, List.map_map]
  rfl

/-- C7 witness: the amended statement at the concrete one-cell column. -/
theorem C7_total_parse_failure_witness :
    convert_to_date badDateFrame 0 =
      (setCol badDateFrame 0
        { name := "d", dtype := Dtype.datetime64
          cells := ([Cell.text "2024-13-40"] : List Cell).map (fun _ => Cell.null) },
       []) :=
  C7_total_parse_failure badDateFrame 0
    { name := "d", dtype := Dtype.object, cells := [Cell.text "2024-13-40"] }
    rfl (by decide)

/-- C8: on the ten-row frame with two duplicate rows the duplicate check
reports count 2, percentage 20 and severity MEDIUM; in general the reported
severity is HIGH only above 50%, MEDIUM above 10%, LOW otherwise, and the
first occurrence of a row is never counted as a duplicate. -/
theorem C8_duplicate_check :
    check_duplicates dupDemoFrame =
      [ValidationIssue.duplicateRow Severity.medium 2 20 [8, 9]] ∧
    (∀ f : Frame, ∀ i ∈ check_duplicates f,
      i.sev = (if pctOf (duplicateCount f) f.nrows > (50 : ℚ) then Severity.high
        else if pctOf (duplicateCount f) f.nrows > (10 : ℚ) then Severity.medium
        else Severity.low)) ∧
    (∀ f : Frame, rowDuplicated f 0 = false) := by
  refine ⟨?_, ?_, fun f => rfl⟩
  · have hdc : duplicateCount dupDemoFrame = 2 := by decide
    have hrows : dupDemoFrame.nrows = 10 := rfl
    have hidx : ((List.range 10).filter
        (fun i => rowDuplicated dupDemoFrame i)).take 20 = [8, 9] := by decide
    have h50 : ¬ (pctOf 2 10 > (50 : ℚ)) := by norm_num [pctOf]
    have h10 : pctOf 2 10 > (10 : ℚ) := by norm_num [pctOf]
    have h20 : pctOf 2 10 = 20 := by norm_num [pctOf]
    simp only [check_duplicates, hdc, hrows, hidx]
    rw [if_pos (by norm_num : (2 : Nat) > 0), if_neg h50, if_pos h10, h20]
  · intro f i hi
    simp only [check_duplicates] at hi
    by_cases hdc : duplicateCount f > 0
    · rw [if_pos hdc] at hi
      rw [List.mem_singleton] at hi
      subst hi
      rfl
    · rw [if_neg hdc] at hi
      simp at hi

/-- C9: a call through the aliasing model leaves the caller's frame slot
untouched: the body copies the frame into a fresh slot and every write goes
to that fresh slot, so slot `i` still holds the argument frame and the
working slot is distinct from it. -/
theorem C9_caller_frame_not_mutated (heap : List Frame) (i : Nat)
    (hi : i < heap.length) :
    (clean_dataframe_heap heap i).1[i]? = heap[i]? ∧
    (clean_dataframe_heap heap i).2.1 ≠ i := by
  constructor
  · simp only [clean_dataframe_heap]
    rw [List.getElem?_set_ne (by omega)]
    exact List.getElem?_append_left hi
  · show heap.length ≠ i
    omega

/-- C9 witness: the aliasing statement at a concrete one-slot heap. -/
theorem C9_caller_frame_not_mutated_witness :
    (clean_dataframe_heap [({ nrows := 0, cols := [] } : Frame)] 0).1[0]? =
      ([({ nrows := 0, cols := [] } : Frame)] : List Frame)[0]? ∧
    (clean_dataframe_heap [({ nrows := 0, cols := [] } : Frame)] 0).2.1 ≠ 0 :=
  C9_caller_frame_not_mutated [({ nrows := 0, cols := [] } : Frame)] 0 (by decide)

/-- C10: on a frame with zero rows or zero columns the status scorer still
returns a summary: the missing percentage is taken as 0 (its denominator,
the cell count, is zero), the duplicate percentage is taken as 0 when the
row count is zero, and every summary field is produced. -/
theorem C10_degenerate_frame_status (f : Frame) (issues : List ValidationIssue)
    (h : f.nrows = 0 ∨ f.cols = []) :
    missingPct f = 0 ∧
    (f.nrows = 0 → duplicatePct f = 0) ∧
    (calculate_status f issues).total_rows = f.nrows ∧
    (calculate_status f issues).total_columns = f.ncols ∧
    (calculate_status f issues).missing_value_count = missingCount f ∧
    (calculate_status f issues).duplicate_row_count = duplicateCount f ∧
    (calculate_status f issues).issue_count = issues.length := by
  have hcells : totalCells f = 0 := by
    rcases h with h | h
    · simp [totalCells, h]
    · simp [totalCells, Frame.ncols, h]
  refine ⟨?_, ?_, rfl, rfl, rfl, rfl, rfl⟩
  · simp [missingPct, hcells]
  · intro h0
    simp [duplicatePct, h0]

/-- C10 witness: the degenerate-frame statement at the empty frame. -/
theorem C10_degenerate_frame_status_witness :
    missingPct { nrows := 0, cols := [] } = 0 ∧
    (({ nrows := 0, cols := [] } : Frame).nrows = 0 →
      duplicatePct { nrows := 0, cols := [] } = 0) ∧
    (calculate_status { nrows := 0, cols := [] } []).total_rows =
      ({ nrows := 0, cols := [] } : Frame).nrows ∧
    (calculate_status { nrows := 0, cols := [] } []).total_columns =
      Frame.ncols { nrows := 0, cols := [] } ∧
    (calculate_status { nrows := 0, cols := [] } []).missing_value_count =
      missingCount { nrows := 0, cols := [] } ∧
    (calculate_status { nrows := 0, cols := [] } []).duplicate_row_count =
      duplicateCount { nrows := 0, cols := [] } ∧
    (calculate_status { nrows := 0, cols := [] } []).issue_count =
      ([] : List ValidationIssue).length :=
  C10_degenerate_frame_status { nrows := 0, cols := [] } [] (Or.inl rfl)

end DataCleaner
